import Mathlib

/-!
Shallow embedding of the Station Registry kernel of the cfp-radio
(liquidradio) web application, taken from `src/js/app.js` and
`src/js/StationEditor.js`.  Those two files import a `Station` entity and a
`Util` module of registry helpers whose sources are not part of the
repository snapshot; these are modelled from the specification (§4.1, §4.2)
and marked as such in their doc comments.  JavaScript arrays are modelled as
Lean lists, in-place mutation as functions returning the updated list
together with the caller-observable outcome, and thrown exceptions as
explicit error values.
-/

namespace Radio

/-- One stream source of a station: a `{src, type}` record
(`src/js/app.js`, spec §3). -/
structure Source where
  src : String
  type : String
  deriving DecidableEq, Repr

/-- A validated station value: `id`, `title`, `description` and an ordered
list of sources (spec §3; the `Station` entity constructed in
`src/js/app.js` line 94 and `src/js/StationEditor.js` line 139). -/
structure Station where
  id : String
  title : String
  description : String
  source : List Source
  deriving DecidableEq, Repr

/-- A raw, not-yet-validated station record, as found in the seed list or in
a parsed storage snapshot (spec §6). -/
structure StationRecord where
  id : String
  title : String
  description : String
  source : List Source
  deriving DecidableEq, Repr

/-- Validation failures of the `Station` constructor (spec §7). -/
inductive ValidationFailure where
  | InvalidId
  | InvalidTitle
  | InvalidSource
  deriving DecidableEq, Repr

/-- Errors thrown by the registry utilities: a duplicate id, or a
propagated construction failure (spec §7). -/
inductive StationError where
  | DuplicateStation
  | Validation (v : ValidationFailure)
  deriving DecidableEq, Repr

/-- Modelled from the spec: `Station.js` is imported by both source files but
is not in the repository snapshot.  Spec §4.1: construction fails with
`InvalidId` if the id is empty, `InvalidTitle` if the title is empty, and
`InvalidSource` if the source list is empty or any element has an empty
`src`; otherwise it produces the station with exactly the given fields. -/
def Station.construct (id title description : String) (source : List Source) :
    Except ValidationFailure Station :=
  if id = "" then .error .InvalidId
  else if title = "" then .error .InvalidTitle
  else if source = [] ∨ source.any (fun s => s.src = "") then .error .InvalidSource
  else .ok ⟨id, title, description, source⟩

/-- Modelled from the spec: `Station.fromJSON` of the missing `Station.js`.
Spec §4.1: reconstructs a Station from a plain data record, applying the same
validation as construction; invalid records fail the same way. -/
def Station.fromJSON (r : StationRecord) : Except ValidationFailure Station :=
  Station.construct r.id r.title r.description r.source

/-- Modelled from the spec: `Util.getStationIndex` of the missing `Util.js`.
Spec §4.2 `findIndex(registry, id)`: index of the first station whose id
equals `id`, with the JavaScript `Array.prototype.findIndex` sentinel `-1`
when no station matches. -/
def getStationIndex (stations : List Station) (id : String) : Int :=
  match stations with
  | [] => -1
  | s :: rest =>
    if s.id = id then 0
    else
      let r := getStationIndex rest id
      if r = -1 then -1 else r + 1

/-- Modelled from the spec: `Util.addStation` of the missing `Util.js`.
Spec §4.2 `add`: reject with `DuplicateStation` if the id is already present,
otherwise construct a Station (propagating any construction failure) and
append it to the registry. -/
def addStation (stations : List Station) (id title description : String)
    (source : List Source) : Except StationError (List Station) :=
  if getStationIndex stations id ≠ -1 then .error .DuplicateStation
  else
    match Station.construct id title description source with
    | .error v => .error (.Validation v)
    | .ok st => .ok (stations ++ [st])

/-- Modelled from the spec: `Util.addStationObject` of the missing `Util.js`,
used by the startup merge in `src/js/app.js` line 125.  Spec §4.2
`addFromExternalRecord`: a record whose id is already present is discarded
(the throw is caught and logged by the caller); a fresh id is appended. -/
def addStationObject (stations : List Station) (st : Station) :
    Except StationError (List Station) :=
  if getStationIndex stations st.id ≠ -1 then .error .DuplicateStation
  else .ok (stations ++ [st])

/-- Caller-observable outcome of `Util.addStation`: the JavaScript function
mutates the array only by the final `push`, so on a thrown error the caller
sees the array unchanged.  Models the registry state together with the
caught error. -/
def addStationCall (stations : List Station) (id title description : String)
    (source : List Source) : List Station × Option StationError :=
  match addStation stations id title description source with
  | .error e => (stations, some e)
  | .ok l => (l, none)

/-! Startup reconciliation, `src/js/app.js` `beforeMount` (lines 88-149). -/

/-- Step 1 of `beforeMount` (`src/js/app.js` lines 91-99): each seed record is
validated through the `Station` constructor; stations that construct are
pushed in order, records that throw are collected in `failedStations`. -/
def seedRegistry (seed : List StationRecord) : List Station × List StationRecord :=
  seed.foldl
    (fun acc r =>
      match Station.construct r.id r.title r.description r.source with
      | .ok st => (acc.1 ++ [st], acc.2)
      | .error _ => (acc.1, acc.2 ++ [r]))
    ([], [])

/-- One iteration of the storage-merge loop (`src/js/app.js` lines 123-130):
`Util.addStationObject(stations, Station.fromJSON(station))` inside a
try/catch whose catch only logs, so a record that fails validation or whose
id is already present leaves the registry as it was. -/
def mergeStep (acc : List Station) (r : StationRecord) : List Station :=
  match Station.fromJSON r with
  | .error _ => acc
  | .ok st =>
    match addStationObject acc st with
    | .error _ => acc
    | .ok l => l

/-- The storage-merge loop of `beforeMount` (`src/js/app.js` lines 121-131):
fold `mergeStep` over the parsed snapshot records in order. -/
def mergeStored (reg : List Station) (recs : List StationRecord) : List Station :=
  recs.foldl mergeStep reg

/-- Steps 1-2 of `beforeMount` (`src/js/app.js` lines 88-133) as a function of
the seed list, the value stored under the `stations` key (`none` when the key
is absent), and the JSON parser (abstracted as a function returning `none`
where `JSON.parse` throws).  Returns the registry and the final value of the
`stations` storage key.  Faithful to the JavaScript control flow: a stored
empty string is falsy, so `if (storedStations)` skips the whole block without
touching storage; an unparseable non-empty value is removed from storage
(`localStorage.removeItem`, line 115) and the merge is skipped; a parseable
value is merged record by record and left in storage. -/
def beforeMountLoad (seed : List StationRecord) (stored : Option String)
    (parse : String → Option (List StationRecord)) :
    List Station × Option String :=
  let reg := (seedRegistry seed).1
  match stored with
  | none => (reg, none)
  | some s =>
    if s = "" then (reg, some s)
    else
      match parse s with
      | none => (reg, none)
      | some recs => (mergeStored reg recs, some s)

/-! Serialization to the storage snapshot, `JSON.stringify` as invoked in
`src/js/app.js` line 76.  String escaping is not modelled (none of the inputs
considered here contain characters that `JSON.stringify` escapes); object keys
appear in the construction order of the `Station` fields. -/

/-- JSON serialization of one `{src, type}` source record. -/
def serializeSource (s : Source) : String :=
  "\x7b\"src\":\"" ++ s.src ++ "\",\"type\":\"" ++ s.type ++ "\"\x7d"

/-- JSON serialization of one station object. -/
def serializeStation (st : Station) : String :=
  "\x7b\"id\":\"" ++ st.id ++ "\",\"title\":\"" ++ st.title ++
    "\",\"description\":\"" ++ st.description ++ "\",\"source\":[" ++
    String.intercalate "," (st.source.map serializeSource) ++ "]\x7d"

/-- JSON serialization of the whole registry array, the value written to the
`stations` storage key by the deep watcher (`src/js/app.js` lines 73-79). -/
def serializeStations (l : List Station) : String :=
  "[" ++ String.intercalate "," (l.map serializeStation) ++ "]"

/-! Station editor workflow, `src/js/StationEditor.js`. -/

/-- Replace the first occurrence of a space by an underscore, the effect of
`String.prototype.replace(" ", "_")` on the character list
(`src/js/StationEditor.js` line 109); later spaces are untouched. -/
def replaceFirstSpace : List Char → List Char
  | [] => []
  | c :: cs => if c = ' ' then '_' :: cs else c :: replaceFirstSpace cs

/-- The id derivation of `addStation` (`src/js/StationEditor.js` line 109):
`this.selectedStation.title.replace(" ", "_").toLowerCase()`.  JavaScript
`toLowerCase` is modelled per character by `Char.toLower` (basic-latin
lowering; no letter lowercases to or from a space, which is the only fact
about lowering the development relies on). -/
def deriveId (title : String) : String :=
  ⟨(replaceFirstSpace title.data).map Char.toLower⟩

/-- The id derivation as the specification words it (§4.5 `commitAdd`):
lowercase the title, then replace the first space by an underscore, keeping
later spaces.  Stated separately from `deriveId` so that the code's
derivation can be proved to refine the spec's. -/
def specDeriveId (title : String) : String :=
  ⟨replaceFirstSpace (title.data.map Char.toLower)⟩

/-- Caller-observable outcome of an editor operation: the registry, the id
held by the draft (`selectedStation.id`), the surfaced error
(`validationError`), and whether the dialog was closed. -/
structure EditorOutcome where
  stations : List Station
  selectedId : String
  validationError : Option StationError
  dialogClosed : Bool
  deriving DecidableEq, Repr

/-- The `addStation` handler of `src/js/StationEditor.js` (lines 105-122):
resets the error field, derives the draft id from the title, then tries
`Util.addStation`; a thrown error is surfaced in `validationError` and the
dialog stays open, otherwise the dialog is closed. -/
def addStationFlow (stations : List Station) (title description : String)
    (source : List Source) : EditorOutcome :=
  let id := deriveId title
  match addStation stations id title description source with
  | .error e => ⟨stations, id, some e, false⟩
  | .ok l => ⟨l, id, none, true⟩

/-- JavaScript assignment `stations[i] = st` for an index produced by
`findIndex`: a negative index creates a plain object property named `"-1"`
and leaves the array's elements and length unchanged, so only a valid index
replaces an element in place. -/
def setAtJS (l : List Station) (i : Int) (st : Station) : List Station :=
  if i < 0 then l else l.set i.toNat st

/-- Outcome of `saveStationEdit`: the registry, the surfaced error and the
dialog state. -/
structure SaveOutcome where
  stations : List Station
  validationError : Option ValidationFailure
  dialogClosed : Bool
  deriving DecidableEq, Repr

/-- The `saveStationEdit` handler of `src/js/StationEditor.js` (lines
129-148): looks up the draft id, logs — without returning — when the id is
not found, then constructs a Station from the draft and assigns it at the
looked-up index (`-1` included, see `setAtJS`); only a constructor throw is
caught, surfacing the error and keeping the dialog open. -/
def saveStationEdit (stations : List Station) (draft : StationRecord) :
    SaveOutcome :=
  let i := getStationIndex stations draft.id
  match Station.construct draft.id draft.title draft.description draft.source with
  | .error v => ⟨stations, some v, false⟩
  | .ok st => ⟨setAtJS stations i st, none, true⟩

/-- Registry effect of the `deleteHandler` (`src/js/StationEditor.js` lines
151-157): splice out the station at the looked-up index when found, no-op
when not; there is no failure path. The boolean reports whether a removal
happened (the branch that also closes the dialog). -/
def removeStation (stations : List Station) (id : String) :
    List Station × Bool :=
  let i := getStationIndex stations id
  if i = -1 then (stations, false) else (stations.eraseIdx i.toNat, true)

/-! Application state and the session controller, `src/js/app.js`. -/

/-- The application state relevant to the registry kernel: the `stream`
object's `stations` array and `currentStation` reference, and the value of
the `stations` key in local storage. -/
structure AppState where
  stations : List Station
  currentStation : Option Station
  storedStations : Option String
  deriving DecidableEq, Repr

/-- The deep watcher on `stream.stations` (`src/js/app.js` lines 73-79):
writes `JSON.stringify` of the whole stations array to the `stations`
storage key.  Storage is modelled as available. -/
def persistStations (app : AppState) : AppState :=
  { app with storedStations := some (serializeStations app.stations) }

/-- `addStation` at app level: the editor pushes into the `stations` array it
received as a prop, which is `stream.stations`; a push is intercepted by
Vue's reactivity, so on success the deep watcher fires and persists the new
registry.  On failure nothing was mutated. -/
def appAddStation (app : AppState) (title description : String)
    (source : List Source) : AppState :=
  let r := addStationFlow app.stations title description source
  if r.dialogClosed then persistStations { app with stations := r.stations }
  else app

/-- The `saveStationEdit` handler at app level.  The replacement is written
with a direct index assignment `this.stations[stationIndex] = new Station(...)`
(`src/js/StationEditor.js` line 139), which Vue 2 cannot observe — the file's
own FIXME on line 130 records this: "Vuejs doesn't detect object change
because we replace it".  The deep watcher therefore does not fire and the
storage key keeps its previous value. -/
def appSaveStationEdit (app : AppState) (draft : StationRecord) : AppState :=
  { app with stations := (saveStationEdit app.stations draft).stations }

/-- The `deleteHandler` at app level: `splice` is intercepted by Vue's
reactivity, so a removal fires the deep watcher and persists the shrunk
registry; when nothing was found, nothing was mutated. -/
def appDeleteStation (app : AppState) (selId : String) : AppState :=
  let r := removeStation app.stations selId
  if r.2 then persistStations { app with stations := r.1 } else app

/-- Outcome of `switchStation`: the state after the call, whether the call
threw, and the reload signal scheduled for the player (`some play` when
`this.$refs.player.reload(play)` is queued on the next tick, `none`
otherwise). -/
structure SwitchOutcome where
  state : AppState
  threw : Bool
  reload : Option Bool
  deriving DecidableEq, Repr

/-- The lookup-and-switch tail of `switchStation` (`src/js/app.js` lines
197-207): find the id; throw on `-1` leaving the state untouched; otherwise
point `currentStation` at the found element and schedule the reload. -/
def switchLookup (app : AppState) (id : String) (play : Bool) : SwitchOutcome :=
  let i := getStationIndex app.stations id
  if i = -1 then ⟨app, true, none⟩
  else ⟨{ app with currentStation := app.stations.get? i.toNat }, false, some play⟩

/-- `switchStation(id, play)` (`src/js/app.js` lines 194-208): if a current
station exists and `id` equals its id, return at once — no throw, no state
change, no reload; otherwise look the id up. -/
def switchStation (app : AppState) (id : String) (play : Bool) : SwitchOutcome :=
  match app.currentStation with
  | some cur => if id = cur.id then ⟨app, false, none⟩ else switchLookup app id play
  | none => switchLookup app id play

/-! Lookup helper used in theorem statements: the station a given id resolves
to, i.e. `stations[getStationIndex(stations, id)]` when the index is not the
`-1` sentinel. -/

/-- First station of the list carrying the given id, if any. -/
def findStation (l : List Station) (id : String) : Option Station :=
  match l with
  | [] => none
  | s :: rest => if s.id = id then some s else findStation rest id

/-! Helper lemmas about the registry utilities. -/

theorem getStationIndex_neg_or_nonneg (l : List Station) (id : String) :
    getStationIndex l id = -1 ∨ 0 ≤ getStationIndex l id := by
  induction l with
  | nil => exact Or.inl rfl
  | cons s rest ih =>
    by_cases h : s.id = id
    · simp [getStationIndex, h]
    · rcases ih with h1 | h1
      · simp [getStationIndex, h, h1]
      · simp only [getStationIndex, if_neg h]
        by_cases h2 : getStationIndex rest id = -1
        · simp [h2]
        · simp only [if_neg h2]
          omega

theorem getStationIndex_eq_neg_one_iff (l : List Station) (id : String) :
    getStationIndex l id = -1 ↔ ∀ s ∈ l, s.id ≠ id := by
  induction l with
  | nil => simp [getStationIndex]
  | cons s rest ih =>
    by_cases h : s.id = id
    · simp only [getStationIndex, if_pos h]
      constructor
      · intro h0; cases h0
      · intro hall; exact absurd h (hall s (List.mem_cons_self s rest))
    · simp only [getStationIndex, if_neg h]
      rcases getStationIndex_neg_or_nonneg rest id with h1 | h1
      · simp only [h1, if_pos rfl]
        constructor
        · intro _ t ht
          rcases List.mem_cons.1 ht with rfl | ht
          · exact h
          · exact (ih.1 h1) t ht
        · intro _; rfl
      · have hne : getStationIndex rest id ≠ -1 := by omega
        simp only [if_neg hne]
        constructor
        · intro h0; exfalso; omega
        · intro hall
          exact absurd (ih.2 fun t ht => hall t (List.mem_cons_of_mem s ht)) hne

theorem findStation_append_of_some {l l2 : List Station} {id : String}
    {st : Station} (h : findStation l id = some st) :
    findStation (l ++ l2) id = some st := by
  induction l with
  | nil => simp [findStation] at h
  | cons s rest ih =>
    by_cases hs : s.id = id
    · simpa [findStation, hs] using h
    · simp only [findStation, if_neg hs] at h
      simpa [findStation, hs] using ih h

theorem mergeStep_append (reg : List Station) (r : StationRecord) :
    ∃ t, mergeStep reg r = reg ++ t := by
  unfold mergeStep
  cases Station.fromJSON r with
  | error v => exact ⟨[], by simp⟩
  | ok st =>
    simp only
    unfold addStationObject
    by_cases h : getStationIndex reg st.id ≠ -1
    · exact ⟨[], by simp [h]⟩
    · exact ⟨[st], by simp [h]⟩

theorem mergeStored_append (recs : List StationRecord) (reg : List Station) :
    ∃ t, mergeStored reg recs = reg ++ t := by
  induction recs generalizing reg with
  | nil => exact ⟨[], by simp [mergeStored]⟩
  | cons r rs ih =>
    obtain ⟨t0, h0⟩ := mergeStep_append reg r
    obtain ⟨t1, h1⟩ := ih (mergeStep reg r)
    refine ⟨t0 ++ t1, ?_⟩
    have : mergeStored reg (r :: rs) = mergeStored (mergeStep reg r) rs := rfl
    rw [this, h1, h0, List.append_assoc]

theorem getStationIndex_eraseIdx {l : List Station} {id : String}
    (hnd : (l.map Station.id).Nodup) (h : getStationIndex l id ≠ -1) :
    getStationIndex (l.eraseIdx (getStationIndex l id).toNat) id = -1 := by
  induction l with
  | nil => exact absurd rfl h
  | cons s rest ih =>
    by_cases hs : s.id = id
    · simp only [getStationIndex, if_pos hs, Int.toNat_zero, List.eraseIdx_cons_zero]
      refine (getStationIndex_eq_neg_one_iff rest id).2 fun t ht => ?_
      have hnotin : s.id ∉ rest.map Station.id := (List.nodup_cons.1 hnd).1
      intro hti
      apply hnotin
      rw [hs, ← hti]
      exact List.mem_map_of_mem Station.id ht
    · rcases getStationIndex_neg_or_nonneg rest id with h1 | h1
      · exfalso; apply h; simp [getStationIndex, hs, h1]
      · have hne : getStationIndex rest id ≠ -1 := by omega
        have hstep : getStationIndex (s :: rest) id = getStationIndex rest id + 1 := by
          simp [getStationIndex, hs, hne]
        have htn : (getStationIndex rest id + 1).toNat
            = (getStationIndex rest id).toNat + 1 := by omega
        rw [hstep, htn, List.eraseIdx_cons_succ]
        have hrec := ih (List.nodup_cons.1 hnd).2 hne
        simp [getStationIndex, hs, hrec]

/-! Helper lemmas about the id derivation. -/

theorem toLower_space : Char.toLower ' ' = ' ' := by decide

theorem char_toNat_ofNat_valid {n : Nat} (h : n.isValidChar) :
    (Char.ofNat n).toNat = n := by
  unfold Char.ofNat
  rw [dif_pos h]
  rfl

theorem eq_space_of_toLower {c : Char} (h : Char.toLower c = ' ') : c = ' ' := by
  by_cases hr : c.toNat ≥ 65 ∧ c.toNat ≤ 90
  · exfalso
    have hlow : Char.toLower c = Char.ofNat (c.toNat + 32) := by
      unfold Char.toLower
      rw [if_pos hr]
    have hvalid : (c.toNat + 32).isValidChar := by
      left
      omega
    have := congrArg Char.toNat (hlow ▸ h)
    rw [char_toNat_ofNat_valid hvalid] at this
    have hsp : (' ' : Char).toNat = 32 := by decide
    omega
  · have hlow : Char.toLower c = c := by
      unfold Char.toLower
      rw [if_neg hr]
    exact hlow ▸ h

theorem toLower_ne_space {c : Char} (h : c ≠ ' ') : Char.toLower c ≠ ' ' :=
  fun hc => h (eq_space_of_toLower hc)

theorem replaceFirstSpace_map_toLower (cs : List Char) :
    (replaceFirstSpace cs).map Char.toLower
      = replaceFirstSpace (cs.map Char.toLower) := by
  induction cs with
  | nil => rfl
  | cons c rest ih =>
    by_cases h : c = ' '
    · subst h
      simp [replaceFirstSpace, toLower_space]
    · simp [replaceFirstSpace, h, toLower_ne_space h, ih]

theorem deriveId_eq_specDeriveId (title : String) :
    deriveId title = specDeriveId title :=
  congrArg String.mk (replaceFirstSpace_map_toLower title.data)

/-! Concrete fixtures used by witnesses and counterexamples. -/

/-- A valid station used as a concrete registry entry. -/
def jazzStation : Station :=
  ⟨"jazz_fm", "Jazz FM", "", [⟨"http://x/stream", "audio/mpeg"⟩]⟩

/-- The seed record that constructs `jazzStation`. -/
def jazzRec : StationRecord :=
  ⟨"jazz_fm", "Jazz FM", "", [⟨"http://x/stream", "audio/mpeg"⟩]⟩

/-- A stored record colliding with the seeded id but carrying different
fields. -/
def evilRec : StationRecord :=
  ⟨"jazz_fm", "Evil", "overwrite attempt", [⟨"http://evil/stream", ""⟩]⟩

/-- A valid draft whose id does not occur in the registry `[jazzStation]`. -/
def rockDraft : StationRecord :=
  ⟨"rock_fm", "Rock FM", "", [⟨"http://r/stream", ""⟩]⟩

/-- A valid edit draft for `jazzStation` that changes its title. -/
def editDraft : StationRecord :=
  ⟨"jazz_fm", "Jazz X", "", [⟨"http://x/stream", "audio/mpeg"⟩]⟩

/-- An app state whose storage snapshot matches its registry. -/
def syncedApp : AppState :=
  ⟨[jazzStation], none, some (serializeStations [jazzStation])⟩

/-- The default station of `src/js/app.js` (`liquid_radio`), used in the C5
counterexample. -/
def liquidStation : Station :=
  ⟨"liquid_radio", "Liquid Radio", "", [⟨"http://stream.example", ""⟩]⟩

/-- A state whose active current station no longer occurs in the registry —
reachable by deleting the active station (see C10). -/
def danglingApp : AppState := ⟨[], some liquidStation, none⟩

/-! Claim theorems. -/

/-- C1: adding a station whose id already occurs in the registry fails with
`DuplicateStation` and the caller sees the registry unchanged — the same
list, hence the same length and the same stations in the same order. -/
theorem addStation_duplicate_rejected
    (stations : List Station) (id title description : String)
    (source : List Source) (h : ∃ s ∈ stations, s.id = id) :
    addStationCall stations id title description source
      = (stations, some StationError.DuplicateStation) := by
  have hidx : getStationIndex stations id ≠ -1 := by
    intro h0
    obtain ⟨s, hs, hsid⟩ := h
    exact (getStationIndex_eq_neg_one_iff stations id).1 h0 s hs hsid
  simp [addStationCall, addStation, hidx]

/-- Witness for C1 at the registry `[jazzStation]` and the duplicate id
`"jazz_fm"`. -/
theorem addStation_duplicate_rejected_witness :
    (∃ s ∈ [jazzStation], s.id = "jazz_fm") ∧
    addStationCall [jazzStation] "jazz_fm" "Jazz Again" "" [⟨"http://y", ""⟩]
      = ([jazzStation], some StationError.DuplicateStation) :=
  ⟨⟨jazzStation, by simp, rfl⟩,
    addStation_duplicate_rejected [jazzStation] "jazz_fm" "Jazz Again" ""
      [⟨"http://y", ""⟩] ⟨jazzStation, by simp, rfl⟩⟩

/-- C2: startup reconciliation never overwrites a seeded station: an id that
resolves in the seeded registry resolves to the very same station (same
title, description and sources) after the merge loop, and the seeded
registry survives unchanged as the initial segment of the merged registry —
stored records are only ever appended or discarded. -/
theorem mergeStored_preserves_seeded
    (seed recs : List StationRecord) (id : String) (st : Station)
    (h : findStation (seedRegistry seed).1 id = some st) :
    findStation (mergeStored (seedRegistry seed).1 recs) id = some st ∧
    (mergeStored (seedRegistry seed).1 recs).take (seedRegistry seed).1.length
      = (seedRegistry seed).1 := by
  obtain ⟨t, ht⟩ := mergeStored_append recs (seedRegistry seed).1
  rw [ht]
  exact ⟨findStation_append_of_some h, List.take_left _ _⟩

/-- Witness for C2: a snapshot record colliding with the seeded `"jazz_fm"`
is discarded and the seeded station keeps its fields. -/
theorem mergeStored_preserves_seeded_witness :
    findStation (seedRegistry [jazzRec]).1 "jazz_fm" = some jazzStation ∧
    findStation (mergeStored (seedRegistry [jazzRec]).1 [evilRec]) "jazz_fm"
      = some jazzStation :=
  ⟨by decide,
    (mergeStored_preserves_seeded [jazzRec] [evilRec] "jazz_fm" jazzStation
      (by decide)).1⟩

/-- C3 (failing-input evaluation): with registry `[jazzStation]` and a valid
draft whose id `"rock_fm"` is absent, `saveStationEdit` does not fail: no
error is surfaced, the dialog closes as on success, and the registry is
unchanged — the spec's `NotFound` failure never happens because the `-1`
check of `src/js/StationEditor.js` lines 136-138 only logs without
returning, and the subsequent assignment at index `-1` is invisible in the
array. -/
theorem saveStationEdit_missing_id_no_failure :
    getStationIndex [jazzStation] "rock_fm" = -1 ∧
    saveStationEdit [jazzStation] rockDraft = ⟨[jazzStation], none, true⟩ := by
  decide

/-- C4 (failing-input evaluation): starting from a state whose storage
snapshot matches the registry, a successful `saveStationEdit` changes the
registry but leaves the old snapshot in storage: the replacement is written
by a direct index assignment that Vue's deep watcher cannot observe (the
FIXME of `src/js/StationEditor.js` line 130), so storage is stale. -/
theorem appSaveStationEdit_stale_storage :
    (appSaveStationEdit syncedApp editDraft).stations ≠ syncedApp.stations ∧
    (appSaveStationEdit syncedApp editDraft).storedStations
        = syncedApp.storedStations ∧
    (appSaveStationEdit syncedApp editDraft).storedStations
        ≠ some (serializeStations (appSaveStationEdit syncedApp editDraft).stations) := by
  decide

/-- C5 counterexample: a state whose active current station no longer occurs
in the registry (reachable by deleting the active station, see C10): calling
`switchStation` with that absent id returns through the early no-op branch
without throwing, refuting the claim that every absent id fails with
`UnknownStation` whenever some current station is active. -/
theorem switchStation_unknown_cex :
    danglingApp.currentStation = some liquidStation ∧
    getStationIndex danglingApp.stations "liquid_radio" = -1 ∧
    (switchStation danglingApp "liquid_radio" true).threw = false := by
  decide

/-- C5 (amended): with an active current station, switching to an id that is
absent from the registry and different from the active station's id throws
(`UnknownStation`) and leaves the whole state — in particular the
current-station reference — unchanged, issuing no reload signal. -/
theorem switchStation_unknown_fails
    (app : AppState) (cur : Station) (id : String) (play : Bool)
    (hcur : app.currentStation = some cur) (hne : id ≠ cur.id)
    (habs : getStationIndex app.stations id = -1) :
    switchStation app id play = ⟨app, true, none⟩ := by
  simp [switchStation, hcur, hne, switchLookup, habs]

/-- Witness for C5 (amended) at the spec's own example: registry
`[jazzStation]`, active current station `jazzStation`, unknown id. -/
theorem switchStation_unknown_fails_witness :
    switchStation ⟨[jazzStation], some jazzStation, none⟩ "unknown_id" true
      = ⟨⟨[jazzStation], some jazzStation, none⟩, true, none⟩ :=
  switchStation_unknown_fails ⟨[jazzStation], some jazzStation, none⟩
    jazzStation "unknown_id" true rfl (by decide) (by decide)

/-- C6: switching to the id of the active current station is a no-op: no
throw, an identical state (same current-station reference), and no reload
signal issued to the player. -/
theorem switchStation_same_id_noop
    (app : AppState) (cur : Station) (play : Bool)
    (hcur : app.currentStation = some cur) :
    switchStation app cur.id play = ⟨app, false, none⟩ := by
  simp [switchStation, hcur]

/-- Witness for C6 with `jazzStation` active. -/
theorem switchStation_same_id_noop_witness :
    switchStation ⟨[jazzStation], some jazzStation, none⟩ jazzStation.id true
      = ⟨⟨[jazzStation], some jazzStation, none⟩, false, none⟩ :=
  switchStation_same_id_noop ⟨[jazzStation], some jazzStation, none⟩
    jazzStation true rfl

/-- C7 counterexample: the empty string stored under the `stations` key is
not parseable as JSON (`JSON.parse("")` throws; the parser models it by
`none`), yet startup does not erase the entry: `if (storedStations)` in
`src/js/app.js` line 108 treats the empty string as falsy and skips the
whole block, so the corrupt value stays in storage. -/
theorem beforeMountLoad_empty_snapshot_kept :
    (beforeMountLoad [] (some "") (fun _ => none)).2 = some "" := by
  decide

/-- C7 (amended): a non-empty stored snapshot the JSON parser rejects is
erased from storage and startup proceeds exactly as if no snapshot were
present; the resulting registry is exactly the validated seed stations. -/
theorem beforeMountLoad_corrupt_snapshot
    (seed : List StationRecord) (s : String)
    (parse : String → Option (List StationRecord))
    (hne : s ≠ "") (hp : parse s = none) :
    beforeMountLoad seed (some s) parse = ((seedRegistry seed).1, none) ∧
    (beforeMountLoad seed (some s) parse).1
      = (beforeMountLoad seed none parse).1 := by
  constructor <;> simp [beforeMountLoad, hne, hp]

/-- Witness for C7 (amended) at the snapshot value `"corrupt"`. -/
theorem beforeMountLoad_corrupt_snapshot_witness :
    beforeMountLoad [jazzRec] (some "corrupt") (fun _ => none)
      = ([jazzStation], none) := by
  have h := beforeMountLoad_corrupt_snapshot [jazzRec] "corrupt" (fun _ => none)
    (by decide) rfl
  rw [h.1]
  decide

/-- C8: the id used by the add workflow equals the draft title lowercased
with only its first space replaced by an underscore — later spaces are kept,
which is what `specDeriveId` does by definition — and the dialog closes
exactly when no error was surfaced, so a failed add leaves the workflow open
with the error displayed. -/
theorem addStationFlow_id_and_dialog
    (stations : List Station) (title description : String)
    (source : List Source) :
    (addStationFlow stations title description source).selectedId
        = specDeriveId title ∧
    ((addStationFlow stations title description source).dialogClosed
        ↔ (addStationFlow stations title description source).validationError
            = none) := by
  rcases hx : addStation stations (deriveId title) title description source
    with e | l <;>
  · rw [deriveId_eq_specDeriveId] at hx
    simp [addStationFlow, hx, deriveId_eq_specDeriveId]

/-- C9: removal is total and idempotent on an id-unique registry: an absent
id is a no-op reporting no removal, and an immediate second removal of the
same id is a no-op that leaves the registry of the single removal; neither
call has a failure path (`removeStation` is a total function). -/
theorem removeStation_idempotent
    (stations : List Station) (id : String)
    (hnd : (stations.map Station.id).Nodup) :
    (getStationIndex stations id = -1 →
        removeStation stations id = (stations, false)) ∧
    removeStation (removeStation stations id).1 id
        = ((removeStation stations id).1, false) := by
  constructor
  · intro h; simp [removeStation, h]
  · by_cases h : getStationIndex stations id = -1
    · simp [removeStation, h]
    · have h2 := getStationIndex_eraseIdx hnd h
      simp [removeStation, h, h2]

/-- Witness for C9 at the registry `[jazzStation]` and id `"jazz_fm"`. -/
theorem removeStation_idempotent_witness :
    ([jazzStation].map Station.id).Nodup ∧
    removeStation (removeStation [jazzStation] "jazz_fm").1 "jazz_fm"
      = ((removeStation [jazzStation] "jazz_fm").1, false) :=
  ⟨by decide, (removeStation_idempotent [jazzStation] "jazz_fm" (by decide)).2⟩

/-- C10: deleting the active station's id through the editor removes the
station from the registry but never touches the current-station pointer: the
pointer still holds the very same station object, whose id now resolves to
no registry entry. -/
theorem appDeleteStation_keeps_current
    (app : AppState) (cur : Station)
    (hcur : app.currentStation = some cur)
    (hnd : (app.stations.map Station.id).Nodup)
    (hin : getStationIndex app.stations cur.id ≠ -1) :
    (appDeleteStation app cur.id).currentStation = some cur ∧
    getStationIndex (appDeleteStation app cur.id).stations cur.id = -1 := by
  have h2 := getStationIndex_eraseIdx hnd hin
  constructor
  · simp [appDeleteStation, removeStation, hin, persistStations, hcur]
  · simp [appDeleteStation, removeStation, hin, persistStations, h2]

/-- Witness for C10 with `jazzStation` both active and registered. -/
theorem appDeleteStation_keeps_current_witness :
    (appDeleteStation ⟨[jazzStation], some jazzStation, none⟩ jazzStation.id).currentStation
        = some jazzStation ∧
    getStationIndex
        (appDeleteStation ⟨[jazzStation], some jazzStation, none⟩ jazzStation.id).stations
        jazzStation.id = -1 :=
  appDeleteStation_keeps_current ⟨[jazzStation], some jazzStation, none⟩
    jazzStation rfl (by decide) (by decide)

end Radio
